import Mathlib

/-!
Shallow embedding of the accessibility-issue detection and aggregation
pipeline of the a11y-robot repository.

Sources embedded:
- src/src/types/index.ts              (data model)
- src/src/analyzers/static-analyzer.ts  (StaticAnalyzer)
- src/src/analyzers/dynamic-analyzer.ts (DynamicAnalyzer)
- src/src/server/a11y-robot-server.ts   (A11yRobotServer)

Markup documents are modelled by the element data each check inspects
(image elements, text-like form controls, label for-targets, heading
levels in document order); stylesheet contents are modelled as the list
of their characters.  JavaScript strings are modelled as Lean `String`
values and their character lists; JavaScript attribute lookups that can
yield `undefined` are modelled by `Option String`, with JS truthiness
made explicit.
-/

namespace A11yRobot

/-- Severity union type from src/src/types/index.ts. -/
inductive Severity where
  | critical
  | serious
  | moderate
  | minor
deriving DecidableEq, Repr

/-- WCAG conformance level union type from src/src/types/index.ts. -/
inductive WcagLevel where
  | A
  | AA
  | AAA
deriving DecidableEq, Repr

/-- The union 'static' | 'dynamic' used for both `AccessibilityIssue.source`
and `AnalysisResult.analysisType` in src/src/types/index.ts. -/
inductive AnalysisMode where
  | static
  | dynamic
deriving DecidableEq, Repr

/-- The AccessibilityIssue interface from src/src/types/index.ts
(the numeric `line`/`column` fields, never set by the embedded code,
are omitted). -/
structure AccessibilityIssue where
  id : String
  rule : String
  severity : Severity
  wcagLevel : WcagLevel
  wcagCriterion : String
  description : String
  helpText : String
  wcagUrl : String
  element : Option String
  selector : Option String
  file : Option String
  source : AnalysisMode
deriving DecidableEq, Repr

/-- The summary record of AnalysisResult from src/src/types/index.ts. -/
structure Summary where
  total : Nat
  critical : Nat
  serious : Nat
  moderate : Nat
  minor : Nat
deriving DecidableEq, Repr

/-- The AnalysisResult interface from src/src/types/index.ts. -/
structure AnalysisResult where
  issues : List AccessibilityIssue
  summary : Summary
  analysisType : AnalysisMode
  timestamp : String
  projectPath : Option String
  url : Option String
deriving DecidableEq, Repr

/-- JavaScript truthiness of an optional string attribute value:
`undefined` and the empty string are falsy, every other string truthy. -/
def truthy (o : Option String) : Bool :=
  match o with
  | none => false
  | some s => !(s == "")

/-- The summary object as initialized in `calculateSummary`
(static-analyzer.ts lines 254-260 and dynamic-analyzer.ts lines 205-211):
`total` is `issues.length`, all four severity counters start at 0. -/
def summaryInit (issues : List AccessibilityIssue) : Summary :=
  { total := issues.length, critical := 0, serious := 0, moderate := 0, minor := 0 }

/-- One iteration of the `for (const issue of issues)` loop with its
`switch (issue.severity)` in `calculateSummary`
(static-analyzer.ts lines 262-277, identical in dynamic-analyzer.ts). -/
def summaryStep (summary : Summary) (issue : AccessibilityIssue) : Summary :=
  match issue.severity with
  | .critical => { summary with critical := summary.critical + 1 }
  | .serious => { summary with serious := summary.serious + 1 }
  | .moderate => { summary with moderate := summary.moderate + 1 }
  | .minor => { summary with minor := summary.minor + 1 }

/-- `StaticAnalyzer.calculateSummary` (static-analyzer.ts lines 253-280);
`DynamicAnalyzer.calculateSummary` (dynamic-analyzer.ts lines 204-231) is
character-for-character the same function. -/
def calculateSummary (issues : List AccessibilityIssue) : Summary :=
  issues.foldl summaryStep (summaryInit issues)

/-- The AnalysisResult built by `StaticAnalyzer.analyze` from the collected
issue list (static-analyzer.ts lines 31-41). -/
def staticAnalysisResult (allIssues : List AccessibilityIssue) (timestamp projectPath : String) :
    AnalysisResult :=
  { issues := allIssues
    summary := calculateSummary allIssues
    analysisType := .static
    timestamp := timestamp
    projectPath := some projectPath
    url := none }

/-- The AnalysisResult built by `DynamicAnalyzer.analyze` from the collected
issue list (dynamic-analyzer.ts lines 48-58). -/
def dynamicAnalysisResult (allIssues : List AccessibilityIssue) (timestamp url : String) :
    AnalysisResult :=
  { issues := allIssues
    summary := calculateSummary allIssues
    analysisType := .dynamic
    timestamp := timestamp
    projectPath := none
    url := some url }

/-! ## Dynamic result normalizer (src/src/analyzers/dynamic-analyzer.ts) -/

/-- `DynamicAnalyzer.mapAxeSeverity` (dynamic-analyzer.ts lines 177-185):
a `switch` on the raw impact string with `default: return 'minor'`. -/
def mapAxeSeverity (impact : String) : Severity :=
  if impact = "critical" then .critical
  else if impact = "serious" then .serious
  else if impact = "moderate" then .moderate
  else if impact = "minor" then .minor
  else .minor

/-- JavaScript `tag.startsWith('wcag')`, on the character-list view of the
string. -/
def strStartsWith (tag pat : String) : Bool :=
  pat.toList.isPrefixOf tag.toList

/-- One `\d+\.` step of the criterion pattern: consume a nonempty digit run
followed by a literal dot, returning the rest. -/
def takeNumDot (l : List Char) : Option (List Char) :=
  match l.takeWhile (fun c => c.isDigit), l.dropWhile (fun c => c.isDigit) with
  | [], _ => none
  | _ :: _, '.' :: rest => some rest
  | _ :: _, _ => none

/-- JavaScript `tag.match(/^\d+\.\d+\.\d+$/)` as a Boolean test
(dynamic-analyzer.ts line 192). -/
def isCriterionFormat (tag : String) : Bool :=
  match takeNumDot tag.toList with
  | none => false
  | some r1 =>
    match takeNumDot r1 with
    | none => false
    | some r2 => !r2.isEmpty && r2.all (fun c => c.isDigit)

/-- `DynamicAnalyzer.extractWcagInfo` (dynamic-analyzer.ts lines 187-202):
find the first tag starting with "wcag"; if present, the level is the
number of 'a' characters in that tag (`split('')` then
`filter(p => p === 'a').length`), mapped 1 to A, 2 to AA, otherwise AAA,
and the criterion is the first tag matching the dotted pattern or
"Unknown"; if absent, the level defaults to AA and the criterion to
"Unknown". -/
def extractWcagInfo (tags : List String) : WcagLevel × String :=
  match tags.find? (fun tag => strStartsWith tag "wcag") with
  | some wcagTag =>
    let level := (wcagTag.toList.filter (fun p => p == 'a')).length
    let criterion := (tags.find? (fun tag => isCriterionFormat tag)).getD "Unknown"
    (if level = 1 then WcagLevel.A else if level = 2 then WcagLevel.AA else WcagLevel.AAA,
      criterion)
  | none => (WcagLevel.AA, "Unknown")

/-! ## Static scanner: markup checks (static-analyzer.ts, analyzeHtmlTemplate) -/

/-- An image element as seen by the scanner: its `alt` and `src`
attributes, `none` when the attribute is absent. -/
structure ImgElement where
  alt : Option String
  src : Option String
deriving DecidableEq, Repr

/-- The issues the `$('img').each` loop (static-analyzer.ts lines 94-116)
pushes for the image at position `index`: one issue exactly when the
`alt` attribute is `undefined`. -/
def imgIssue (filePath : String) (index : Nat) (img : ImgElement) : List AccessibilityIssue :=
  if img.alt = none then
    [{ id := "img-alt-" ++ toString index
       rule := "Images must have alt attributes"
       severity := .serious
       wcagLevel := .A
       wcagCriterion := "1.1.1"
       description := "Image elements must have an alt attribute to provide alternative text for screen readers."
       helpText := "Add an alt attribute that describes the image content or use alt=\"\" for decorative images."
       wcagUrl := "https://www.w3.org/TR/WCAG20/#text-equiv-all"
       element := some (if truthy img.src then "<img src=\"" ++ img.src.getD "" ++ "\">" else "<img>")
       selector := some "img"
       file := some filePath
       source := .static }]
  else []

/-- The `$('img').each` traversal with its running element index. -/
def analyzeImgsAux (filePath : String) (index : Nat) : List ImgElement → List AccessibilityIssue
  | [] => []
  | img :: rest => imgIssue filePath index img ++ analyzeImgsAux filePath (index + 1) rest

/-- All image issues of one markup file (static-analyzer.ts lines 94-116). -/
def analyzeImgs (filePath : String) (imgs : List ImgElement) : List AccessibilityIssue :=
  analyzeImgsAux filePath 0 imgs

/-- A text-like form control matched by the input/textarea/select selector
(static-analyzer.ts line 119): its `id`, `aria-label`, `aria-labelledby`
and `type` attributes, and its tag name. -/
structure FormControl where
  id : Option String
  ariaLabel : Option String
  ariaLabelledby : Option String
  typeAttr : Option String
  tagName : String
deriving DecidableEq, Repr

/-- `$input.attr('type') || $input.prop('tagName')?.toLowerCase() || 'input'`
(static-analyzer.ts line 124). -/
def controlType (c : FormControl) : String :=
  if truthy c.typeAttr then c.typeAttr.getD ""
  else if c.tagName.toLower == "" then "input"
  else c.tagName.toLower

/-- The `if (id) { hasLabel = $(label[for=id]).length > 0 }` check
(static-analyzer.ts lines 127-130), with `labelForIds` the `for` values of
the label elements present in the document. -/
def hasLabelFor (labelForIds : List String) (c : FormControl) : Bool :=
  if truthy c.id then labelForIds.contains (c.id.getD "") else false

/-- The issues the form-control loop (static-analyzer.ts lines 119-146)
pushes for the control at position `index`. -/
def inputIssue (filePath : String) (labelForIds : List String) (index : Nat)
    (c : FormControl) : List AccessibilityIssue :=
  if !hasLabelFor labelForIds c && !truthy c.ariaLabel && !truthy c.ariaLabelledby then
    [{ id := "input-label-" ++ toString index
       rule := "Form inputs must have labels"
       severity := .serious
       wcagLevel := .A
       wcagCriterion := "1.3.1"
       description := "Form input elements must have associated labels to be accessible to screen readers."
       helpText := "Add a <label> element with a \"for\" attribute matching the input\u0027s id, or use aria-label or aria-labelledby."
       wcagUrl := "https://www.w3.org/TR/WCAG20/#content-structure-separation-programmatic"
       element := some ("<" ++ controlType c ++ ">")
       selector := some (controlType c)
       file := some filePath
       source := .static }]
  else []

/-- The form-control traversal with its running element index. -/
def analyzeInputsAux (filePath : String) (labelForIds : List String) (index : Nat) :
    List FormControl → List AccessibilityIssue
  | [] => []
  | c :: rest => inputIssue filePath labelForIds index c ++
      analyzeInputsAux filePath labelForIds (index + 1) rest

/-- The single issue pushed for a heading that skips a level
(static-analyzer.ts lines 157-172). -/
def headingIssue (filePath : String) (index previousLevel currentLevel : Nat) :
    AccessibilityIssue :=
  { id := "heading-hierarchy-" ++ toString index
    rule := "Heading levels should not be skipped"
    severity := .moderate
    wcagLevel := .AA
    wcagCriterion := "1.3.1"
    description := "Heading levels should be used in sequential order without skipping levels."
    helpText := "Use h" ++ toString (previousLevel + 1) ++ " instead of h" ++
      toString currentLevel ++ " to maintain proper heading hierarchy."
    wcagUrl := "https://www.w3.org/TR/WCAG20/#content-structure-separation-programmatic"
    element := some ("<h" ++ toString currentLevel ++ ">")
    selector := some ("h" ++ toString currentLevel)
    file := some filePath
    source := .static }

/-- The `headings.forEach` loop (static-analyzer.ts lines 153-175): flag the
heading when `currentLevel > previousLevel + 1`, then set
`previousLevel = currentLevel` regardless. -/
def analyzeHeadingsAux (filePath : String) (previousLevel index : Nat) :
    List Nat → List AccessibilityIssue
  | [] => []
  | currentLevel :: rest =>
    (if previousLevel + 1 < currentLevel then
        [headingIssue filePath index previousLevel currentLevel]
      else []) ++ analyzeHeadingsAux filePath currentLevel (index + 1) rest

/-- The heading-hierarchy check over the heading levels of one markup file
in document order; `previousLevel` starts at 0 (static-analyzer.ts
lines 150-176). -/
def analyzeHeadings (filePath : String) (levels : List Nat) : List AccessibilityIssue :=
  analyzeHeadingsAux filePath 0 0 levels

/-- A markup document as seen by `analyzeHtmlTemplate`: its image elements,
its text-like form controls, the `for` targets of its label elements, and
its heading levels, each in document order. -/
structure HtmlDoc where
  imgs : List ImgElement
  controls : List FormControl
  labelForIds : List String
  headingLevels : List Nat
deriving DecidableEq, Repr

/-- `StaticAnalyzer.analyzeHtmlTemplate` (static-analyzer.ts lines 89-179):
image check, then form-control check, then heading-hierarchy check, each
pushing onto the shared issue list. -/
def analyzeHtmlTemplate (doc : HtmlDoc) (filePath : String) : List AccessibilityIssue :=
  analyzeImgs filePath doc.imgs ++
    analyzeInputsAux filePath doc.labelForIds 0 doc.controls ++
    analyzeHeadings filePath doc.headingLevels

/-! ## Static scanner: stylesheet check (static-analyzer.ts, analyzeCssFile) -/

/-- JavaScript `content.includes(pat)` on character lists. -/
def listContains (content pat : List Char) : Bool :=
  content.tails.any (fun t => pat.isPrefixOf t)

/-- The whitespace class of the JavaScript regex `\s` (ASCII part). -/
def isJsWhitespace (c : Char) : Bool :=
  c == ' ' || c == '\t' || c == '\n' || c == '\r' || c == '\x0b' || c == '\x0c'

/-- Whether the regex `outline\s*:\s*none` matches at the start of `l`. -/
def matchOutlineNoneAt (l : List Char) : Bool :=
  "outline".toList.isPrefixOf l &&
    (match (l.drop 7).dropWhile isJsWhitespace with
     | ':' :: rest => "none".toList.isPrefixOf (rest.dropWhile isJsWhitespace)
     | _ => false)

/-- Whether `content.match(/outline\s*:\s*none/g)` is non-null: the pattern
matches somewhere in the content. -/
def hasOutlineNone (content : List Char) : Bool :=
  content.tails.any matchOutlineNoneAt

/-- The number of positions at which `outline\s*:\s*none` matches: the
occurrence count delivered by the global regex (matches of this pattern
cannot overlap). -/
def countOutlineNone (content : List Char) : Nat :=
  content.tails.countP matchOutlineNoneAt

/-- The focus-state selector list of static-analyzer.ts line 224. -/
def focusSelectors : List String := [":focus", ":focus-visible", ":focus-within"]

/-- `focusSelectors.some(selector => content.includes(selector))`
(static-analyzer.ts line 225). -/
def hasFocusStyles (content : List Char) : Bool :=
  focusSelectors.any (fun sel => listContains content sel.toList)

/-- The single issue pushed by the stylesheet check
(static-analyzer.ts lines 229-242). -/
def outlineNoneIssue (filePath : String) : AccessibilityIssue :=
  { id := "outline-none-focus"
    rule := "Do not remove focus indicators without replacement"
    severity := .serious
    wcagLevel := .AA
    wcagCriterion := "2.4.7"
    description := "Removing focus indicators without providing alternative focus styles makes it difficult for keyboard users to navigate."
    helpText := "If you remove the default outline, provide alternative focus styles using :focus or :focus-visible."
    wcagUrl := "https://www.w3.org/TR/WCAG20/#navigation-mechanisms-focus-visible"
    element := some "outline: none"
    selector := none
    file := some filePath
    source := .static }

/-- `StaticAnalyzer.analyzeCssFile` (static-analyzer.ts lines 220-247):
when no focus-state selector occurs and the content contains "outline",
push one issue if the `outline\s*:\s*none` regex matches. -/
def analyzeCssFile (content : List Char) (filePath : String) : List AccessibilityIssue :=
  if !hasFocusStyles content && listContains content "outline".toList then
    if hasOutlineNone content then [outlineNoneIssue filePath] else []
  else []

/-! ## Aggregator (src/src/server/a11y-robot-server.ts) -/

/-- The `severityOrder` rank map of a11y-robot-server.ts line 112. -/
def severityOrder : Severity → Nat
  | .critical => 0
  | .serious => 1
  | .moderate => 2
  | .minor => 3

/-- The comparator order of `allIssues.sort((a, b) =>
severityOrder[a.severity] - severityOrder[b.severity])`
(a11y-robot-server.ts line 113). -/
def issueLE (a b : AccessibilityIssue) : Prop :=
  severityOrder a.severity ≤ severityOrder b.severity

instance : DecidableRel issueLE := fun _ _ => Nat.decLe _ _

instance : IsTotal AccessibilityIssue issueLE := ⟨fun _ _ => Nat.le_total _ _⟩

instance : IsTrans AccessibilityIssue issueLE := ⟨fun _ _ _ => Nat.le_trans⟩

/-- The in-place `allIssues.sort` call, modelled by a stable sort with the
comparator order: ECMAScript `Array.prototype.sort` is specified to be
stable. -/
def sortIssues (l : List AccessibilityIssue) : List AccessibilityIssue :=
  List.insertionSort issueLE l

/-- `A11yRobotServer.calculateSummary` (a11y-robot-server.ts lines 221-229):
the filter-based summary computation. -/
def calculateSummaryServer (issues : List AccessibilityIssue) : Summary :=
  { total := issues.length
    critical := (issues.filter (fun i => i.severity == .critical)).length
    serious := (issues.filter (fun i => i.severity == .serious)).length
    moderate := (issues.filter (fun i => i.severity == .moderate)).length
    minor := (issues.filter (fun i => i.severity == .minor)).length }

/-- The aggregation core of `A11yRobotServer.generateAccessibilityReport`
(a11y-robot-server.ts lines 100-122): reject an empty result list with an
error, otherwise concatenate all issue lists in order (`forEach` push),
sort by severity rank, and build the combined AnalysisResult whose
`analysisType` is the literal `'static'`. -/
def generateAccessibilityReport (analysisResults : List AnalysisResult) (timestamp : String) :
    Except String AnalysisResult :=
  if analysisResults.length = 0 then
    Except.error "No analysis results available. Please run static or dynamic analysis first."
  else
    Except.ok
      { issues := sortIssues (analysisResults.foldl (fun acc r => acc ++ r.issues) [])
        summary :=
          calculateSummaryServer (sortIssues (analysisResults.foldl (fun acc r => acc ++ r.issues) []))
        analysisType := .static
        timestamp := timestamp
        projectPath := none
        url := none }

/-! ## Concrete inputs used by witnesses and counterexamples -/

/-- A dynamic issue as produced by `convertAxeResults`, with the fields the
theorems below inspect filled in. -/
def demoIssue (sev : Severity) (n : String) : AccessibilityIssue :=
  { id := n
    rule := "color-contrast"
    severity := sev
    wcagLevel := .AA
    wcagCriterion := "1.4.3"
    description := "Elements must have sufficient color contrast"
    helpText := "Ensure contrast"
    wcagUrl := "https://dequeuniversity.com/rules/axe/4.4/color-contrast"
    element := some "<p>"
    selector := some "p"
    file := none
    source := .dynamic }

/-- A dynamic AnalysisResult with mixed severities, used to exercise the
aggregator. -/
def demoDynResult : AnalysisResult :=
  dynamicAnalysisResult
    [demoIssue .minor "axe-1", demoIssue .critical "axe-2", demoIssue .minor "axe-3"]
    "2024-01-01T00:00:00.000Z" "https://example.com"

/-- A stylesheet content with two `outline: none` occurrences and no
focus-state selector. -/
def cssSample : List Char := "outline: none; outline:none;".toList

/-- The combined AnalysisResult the aggregator produces from
`[demoDynResult]`. -/
def demoCombinedResult : AnalysisResult :=
  { issues := sortIssues demoDynResult.issues
    summary := calculateSummaryServer (sortIssues demoDynResult.issues)
    analysisType := .static
    timestamp := "2024-02-02T00:00:00.000Z"
    projectPath := none
    url := none }

/-! ## Helper lemmas -/

/-- The severity counters of the `for (const issue of issues)` loop count
exactly the issues of each severity, and the `total` field is never
touched by the loop. -/
theorem foldl_summaryStep (l : List AccessibilityIssue) :
    ∀ s : Summary,
      (l.foldl summaryStep s).total = s.total ∧
      (l.foldl summaryStep s).critical =
        s.critical + l.countP (fun i => i.severity == .critical) ∧
      (l.foldl summaryStep s).serious =
        s.serious + l.countP (fun i => i.severity == .serious) ∧
      (l.foldl summaryStep s).moderate =
        s.moderate + l.countP (fun i => i.severity == .moderate) ∧
      (l.foldl summaryStep s).minor =
        s.minor + l.countP (fun i => i.severity == .minor) := by
  induction l with
  | nil => intro s; simp
  | cons i rest ih =>
    intro s
    obtain ⟨h1, h2, h3, h4, h5⟩ := ih (summaryStep s i)
    cases hi : i.severity <;>
      simp +decide [List.countP_cons, summaryStep, hi] at h1 h2 h3 h4 h5 ⊢ <;>
      omega

/-- Every issue has exactly one of the four severities, so the four
per-severity counts partition the list. -/
theorem countP_severity_partition (l : List AccessibilityIssue) :
    l.countP (fun i => i.severity == .critical) + l.countP (fun i => i.severity == .serious) +
        l.countP (fun i => i.severity == .moderate) +
        l.countP (fun i => i.severity == .minor) =
      l.length := by
  induction l with
  | nil => simp
  | cons i rest ih =>
    cases hi : i.severity <;> simp +decide [List.countP_cons, hi] <;> omega

/-! ## Claims -/

/-- C1: for every AnalysisResult produced by static analysis, dynamic
analysis, or report aggregation, the summary is computed strictly from the
issues list: `summary.total` equals `issues.length`, and
`summary.critical + summary.serious + summary.moderate + summary.minor`
equals `summary.total`. -/
theorem analysisResult_summary_invariant
    (issues : List AccessibilityIssue) (ts p u : String)
    (results : List AnalysisResult) (r : AnalysisResult) :
    ((staticAnalysisResult issues ts p).summary.total =
        (staticAnalysisResult issues ts p).issues.length ∧
      (staticAnalysisResult issues ts p).summary.critical +
          (staticAnalysisResult issues ts p).summary.serious +
          (staticAnalysisResult issues ts p).summary.moderate +
          (staticAnalysisResult issues ts p).summary.minor =
        (staticAnalysisResult issues ts p).summary.total) ∧
    ((dynamicAnalysisResult issues ts u).summary.total =
        (dynamicAnalysisResult issues ts u).issues.length ∧
      (dynamicAnalysisResult issues ts u).summary.critical +
          (dynamicAnalysisResult issues ts u).summary.serious +
          (dynamicAnalysisResult issues ts u).summary.moderate +
          (dynamicAnalysisResult issues ts u).summary.minor =
        (dynamicAnalysisResult issues ts u).summary.total) ∧
    (generateAccessibilityReport results ts = Except.ok r →
      r.summary.total = r.issues.length ∧
      r.summary.critical + r.summary.serious + r.summary.moderate + r.summary.minor =
        r.summary.total) := by
  obtain ⟨h1, h2, h3, h4, h5⟩ := foldl_summaryStep issues (summaryInit issues)
  have hp := countP_severity_partition issues
  refine ⟨⟨?_, ?_⟩, ⟨?_, ?_⟩, ?_⟩
  · simpa [staticAnalysisResult, calculateSummary, summaryInit] using h1
  · simp only [staticAnalysisResult, calculateSummary, summaryInit] at *
    omega
  · simpa [dynamicAnalysisResult, calculateSummary, summaryInit] using h1
  · simp only [dynamicAnalysisResult, calculateSummary, summaryInit] at *
    omega
  · intro hok
    by_cases hl : results.length = 0
    · rw [generateAccessibilityReport, if_pos hl] at hok
      exact Except.noConfusion hok
    · rw [generateAccessibilityReport, if_neg hl] at hok
      have hr := (Except.ok.injEq _ _).mp hok
      subst hr
      have hq := countP_severity_partition
        (sortIssues (results.foldl (fun acc x => acc ++ x.issues) []))
      constructor
      · rfl
      · simp only [calculateSummaryServer, ← List.countP_eq_length_filter]
        omega

/-- Witness for C1: the aggregation branch evaluated on one concrete
dynamic result. -/
theorem analysisResult_summary_invariant_witness :
    demoCombinedResult.summary.total = demoCombinedResult.issues.length ∧
    demoCombinedResult.summary.critical + demoCombinedResult.summary.serious +
        demoCombinedResult.summary.moderate + demoCombinedResult.summary.minor =
      demoCombinedResult.summary.total :=
  (analysisResult_summary_invariant [] "2024-02-02T00:00:00.000Z" "p" "u" [demoDynResult]
    demoCombinedResult).2.2 rfl

/-- C7: the impact-to-severity mapping of the dynamic normalizer is total:
the four known impact values map to themselves and every other impact
string maps to severity minor. -/
theorem mapAxeSeverity_total_default :
    mapAxeSeverity "critical" = Severity.critical ∧
    mapAxeSeverity "serious" = Severity.serious ∧
    mapAxeSeverity "moderate" = Severity.moderate ∧
    mapAxeSeverity "minor" = Severity.minor ∧
    ∀ impact : String, impact ≠ "critical" → impact ≠ "serious" → impact ≠ "moderate" →
      impact ≠ "minor" → mapAxeSeverity impact = Severity.minor := by
  refine ⟨rfl, rfl, rfl, rfl, ?_⟩
  intro impact h1 h2 h3 h4
  simp [mapAxeSeverity, h1, h2, h3, h4]

/-- Witness for C7: the unrecognized impact value "blocker" maps to
severity minor. -/
theorem mapAxeSeverity_total_default_witness :
    mapAxeSeverity "blocker" = Severity.minor :=
  mapAxeSeverity_total_default.2.2.2.2 "blocker" (by decide) (by decide) (by decide) (by decide)

/-- C3: the WCAG level is inferred by counting the level-indicating
character 'a' in the first WCAG-style tag: one occurrence yields level A,
two yield AA, three or more yield AAA; when no WCAG-style tag is present,
the level defaults to AA and the criterion to "Unknown". -/
theorem extractWcagInfo_level_mapping (tags : List String) :
    (tags.find? (fun tag => strStartsWith tag "wcag") = none →
      extractWcagInfo tags = (WcagLevel.AA, "Unknown")) ∧
    ∀ t, tags.find? (fun tag => strStartsWith tag "wcag") = some t →
      (((t.toList.filter (fun c => c == 'a')).length = 1 →
          (extractWcagInfo tags).1 = WcagLevel.A) ∧
        ((t.toList.filter (fun c => c == 'a')).length = 2 →
          (extractWcagInfo tags).1 = WcagLevel.AA) ∧
        (3 ≤ (t.toList.filter (fun c => c == 'a')).length →
          (extractWcagInfo tags).1 = WcagLevel.AAA)) := by
  constructor
  · intro h
    simp [extractWcagInfo, h]
  · intro t ht
    have key : (extractWcagInfo tags).1 =
        (if (t.toList.filter (fun c => c == 'a')).length = 1 then WcagLevel.A
          else if (t.toList.filter (fun c => c == 'a')).length = 2 then WcagLevel.AA
          else WcagLevel.AAA) := by
      simp only [extractWcagInfo, ht]
    refine ⟨?_, ?_, ?_⟩ <;> intro hn <;> rw [key]
    · rw [if_pos hn]
    · rw [if_neg (by omega), if_pos hn]
    · rw [if_neg (by omega), if_neg (by omega)]

/-- Witness for C3: a three-'a' tag yields AAA, and a tag list without any
WCAG-style tag yields the AA and "Unknown" defaults. -/
theorem extractWcagInfo_level_mapping_witness :
    (extractWcagInfo ["wcag21aa", "1.4.3"]).1 = WcagLevel.AAA ∧
    extractWcagInfo ["best-practice"] = (WcagLevel.AA, "Unknown") :=
  ⟨((extractWcagInfo_level_mapping ["wcag21aa", "1.4.3"]).2 "wcag21aa"
      (by decide)).2.2 (by decide),
    (extractWcagInfo_level_mapping ["best-practice"]).1 (by decide)⟩

/-- The heading loop with an arbitrary starting `previousLevel` and index
flags exactly the positions whose level exceeds its predecessor plus one,
where the predecessor of the first position is the starting level. -/
theorem analyzeHeadingsAux_length (fp : String) :
    ∀ (levels : List Nat) (prev idx : Nat),
      (analyzeHeadingsAux fp prev idx levels).length =
        ((prev :: levels).zip levels).countP (fun pc => decide (pc.1 + 1 < pc.2)) := by
  intro levels
  induction levels with
  | nil => intro prev idx; simp [analyzeHeadingsAux]
  | cons c rest ih =>
    intro prev idx
    by_cases h : prev + 1 < c <;>
      simp [analyzeHeadingsAux, List.zip_cons_cons, List.countP_cons, h, ih c (idx + 1)]

/-- C4 (amended): the heading-hierarchy check flags exactly the headings
whose level exceeds the immediately preceding heading's level plus 1,
where the tracked previous level starts at 0 — so the first heading is
flagged exactly when its level exceeds 1 — and the previous level updates
to the current heading's level whether or not the heading was flagged, so
consecutive skips produce one issue per skipping heading. -/
theorem heading_hierarchy_flagging (fp : String) (levels : List Nat) :
    (analyzeHeadings fp levels).length =
      ((0 :: levels).zip levels).countP (fun pc => decide (pc.1 + 1 < pc.2)) :=
  analyzeHeadingsAux_length fp levels 0 0

/-- Counterexample for C4 as stated: in a document whose only heading is an
h2, that first heading is flagged (the baseline is the initial previous
level 0, not the first heading's own level), so the first heading is not
exempt whatever its level. -/
theorem heading_first_flagged_counterexample :
    (analyzeHeadings "template.html" [2]).length = 1 ∧
    (analyzeHeadings "template.html" [2]).map (fun i => i.id) = ["heading-hierarchy-0"] := by
  constructor
  · rfl
  · rfl

/-- C5: the document whose headings are exactly h1,h2,h4 yields exactly one
heading-hierarchy issue, at the h4 (element index 2); the document whose
headings are exactly h1,h3,h5 yields exactly two, at the h3 and the h5. -/
theorem heading_sequences_example :
    ((analyzeHtmlTemplate ⟨[], [], [], [1, 2, 4]⟩ "page.html").map (fun i => i.id) =
        ["heading-hierarchy-2"] ∧
      (analyzeHtmlTemplate ⟨[], [], [], [1, 2, 4]⟩ "page.html").map (fun i => i.rule) =
        ["Heading levels should not be skipped"]) ∧
    ((analyzeHtmlTemplate ⟨[], [], [], [1, 3, 5]⟩ "page.html").map (fun i => i.id) =
        ["heading-hierarchy-1", "heading-hierarchy-2"] ∧
      (analyzeHtmlTemplate ⟨[], [], [], [1, 3, 5]⟩ "page.html").map (fun i => i.rule) =
        ["Heading levels should not be skipped", "Heading levels should not be skipped"]) := by
  refine ⟨⟨?_, ?_⟩, ⟨?_, ?_⟩⟩ <;> rfl

/-- The image loop splits over list concatenation, shifting the running
index. -/
theorem analyzeImgsAux_append (fp : String) (l1 l2 : List ImgElement) :
    ∀ k, analyzeImgsAux fp k (l1 ++ l2) =
      analyzeImgsAux fp k l1 ++ analyzeImgsAux fp (k + l1.length) l2 := by
  induction l1 with
  | nil => intro k; simp [analyzeImgsAux]
  | cons i rest ih =>
    intro k
    simp only [List.cons_append, analyzeImgsAux, List.append_assoc, List.length_cons]
    rw [show k + (rest.length + 1) = k + 1 + rest.length by omega]
    exact congrArg (imgIssue fp k i ++ ·) (ih (k + 1))

/-- C6: for every image element in a markup file, the scanner emits exactly
one issue with severity serious, WCAG criterion 1.1.1 and level A when the
alt attribute is absent, and zero issues for that image when the alt
attribute is present, even with an empty value. -/
theorem img_alt_check (fp : String) (pre : List ImgElement) (img : ImgElement)
    (post : List ImgElement) :
    analyzeImgs fp (pre ++ img :: post) =
      analyzeImgsAux fp 0 pre ++ imgIssue fp pre.length img ++
        analyzeImgsAux fp (pre.length + 1) post ∧
    (img.alt = none →
      ∃ iss, imgIssue fp pre.length img = [iss] ∧ iss.severity = Severity.serious ∧
        iss.wcagLevel = WcagLevel.A ∧ iss.wcagCriterion = "1.1.1") ∧
    ∀ s, img.alt = some s → imgIssue fp pre.length img = [] := by
  refine ⟨?_, ?_, ?_⟩
  · rw [analyzeImgs, analyzeImgsAux_append fp pre (img :: post) 0]
    simp [analyzeImgsAux, List.append_assoc]
  · intro h
    simp only [imgIssue, h, if_pos]
    exact ⟨_, rfl, rfl, rfl, rfl⟩
  · intro s h
    simp [imgIssue, h]

/-- Witness for C6: an image with no alt attribute produces the single
serious 1.1.1 level-A issue; an image with an empty alt produces none. -/
theorem img_alt_check_witness :
    (∃ iss, imgIssue "a.html" 0 ⟨none, none⟩ = [iss] ∧ iss.severity = Severity.serious ∧
      iss.wcagLevel = WcagLevel.A ∧ iss.wcagCriterion = "1.1.1") ∧
    imgIssue "a.html" 0 ⟨some "", none⟩ = [] :=
  ⟨(img_alt_check "a.html" [] ⟨none, none⟩ []).2.1 rfl,
    (img_alt_check "a.html" [] ⟨some "", none⟩ []).2.2 "" rfl⟩

/-- Stability of the severity sort: for each severity, the subsequence of
issues of that severity is unchanged by sorting, so equal-severity issues
keep their pre-sort relative order. -/
theorem sortIssues_filter (l : List AccessibilityIssue) (s : Severity) :
    (sortIssues l).filter (fun i => i.severity == s) =
      l.filter (fun i => i.severity == s) := by
  have hpair : (l.filter (fun i => i.severity == s)).Pairwise issueLE := by
    apply List.pairwise_of_forall_mem_list
    intro a ha b hb
    have ha3 : a.severity = s := by simpa using (List.mem_filter.mp ha).2
    have hb3 : b.severity = s := by simpa using (List.mem_filter.mp hb).2
    simp [issueLE, ha3, hb3]
  have hsub : List.Sublist (l.filter (fun i => i.severity == s)) (sortIssues l) :=
    List.sublist_insertionSort hpair (List.filter_sublist l)
  have hself : (l.filter (fun i => i.severity == s)).filter (fun i => i.severity == s) =
      l.filter (fun i => i.severity == s) :=
    List.filter_eq_self.mpr (fun a ha => (List.mem_filter.mp ha).2)
  have hsub2 : List.Sublist (l.filter (fun i => i.severity == s))
      ((sortIssues l).filter (fun i => i.severity == s)) := by
    have h2 := hsub.filter (fun i => i.severity == s)
    rwa [hself] at h2
  have hlen : ((sortIssues l).filter (fun i => i.severity == s)).length =
      (l.filter (fun i => i.severity == s)).length :=
    ((List.perm_insertionSort issueLE l).filter (fun i => i.severity == s)).length_eq
  exact (hsub2.eq_of_length hlen.symm).symm

/-- C2: aggregation for report generation sorts the concatenated issues by
severity rank ascending (critical=0, serious=1, moderate=2, minor=3), and
the sort is stable: issues of equal severity retain their pre-sort
relative order in the output. -/
theorem report_sorting_stable (results : List AnalysisResult) (ts : String)
    (h : results ≠ []) :
    severityOrder .critical = 0 ∧ severityOrder .serious = 1 ∧
    severityOrder .moderate = 2 ∧ severityOrder .minor = 3 ∧
    ∃ r, generateAccessibilityReport results ts = Except.ok r ∧
      r.issues = sortIssues (results.foldl (fun acc x => acc ++ x.issues) []) ∧
      List.Pairwise issueLE r.issues ∧
      ∀ s : Severity,
        r.issues.filter (fun i => i.severity == s) =
          (results.foldl (fun acc x => acc ++ x.issues) []).filter
            (fun i => i.severity == s) := by
  have hl : ¬results.length = 0 := by
    simpa [List.length_eq_zero] using h
  refine ⟨rfl, rfl, rfl, rfl,
    ⟨{ issues := sortIssues (results.foldl (fun acc x => acc ++ x.issues) [])
       summary :=
         calculateSummaryServer (sortIssues (results.foldl (fun acc x => acc ++ x.issues) []))
       analysisType := .static
       timestamp := ts
       projectPath := none
       url := none }, ?_, rfl, ?_, ?_⟩⟩
  · rw [generateAccessibilityReport, if_neg hl]
  · exact List.sorted_insertionSort issueLE _
  · intro s
    exact sortIssues_filter _ s

/-- Witness for C2: the aggregator applied to one concrete dynamic result
with severities minor, critical, minor. -/
theorem report_sorting_stable_witness :
    ∃ r, generateAccessibilityReport [demoDynResult] "2024-02-02T00:00:00.000Z" =
        Except.ok r ∧
      r.issues = sortIssues ([demoDynResult].foldl (fun acc x => acc ++ x.issues) []) ∧
      List.Pairwise issueLE r.issues ∧
      ∀ s : Severity,
        r.issues.filter (fun i => i.severity == s) =
          ([demoDynResult].foldl (fun acc x => acc ++ x.issues) []).filter
            (fun i => i.severity == s) :=
  (report_sorting_stable [demoDynResult] "2024-02-02T00:00:00.000Z"
    (List.cons_ne_nil _ _)).2.2.2.2

/-- Counterexample for C8 as stated: aggregation invoked with zero prior
analysis results does not succeed with an empty issue list; it raises the
structured no-results error. -/
theorem report_empty_counterexample :
    generateAccessibilityReport [] "2024-02-02T00:00:00.000Z" =
      Except.error
        "No analysis results available. Please run static or dynamic analysis first." :=
  rfl

/-- C8 (amended): aggregation invoked with zero prior analysis results
raises the structured no-results error instead of producing a result. -/
theorem report_empty_rejected (ts : String) :
    generateAccessibilityReport [] ts =
      Except.error
        "No analysis results available. Please run static or dynamic analysis first." :=
  rfl

/-- C10: the combined AnalysisResult produced by report generation always
carries analysisType 'static', whatever the provenance of the merged
results. -/
theorem report_analysisType_always_static (results : List AnalysisResult) (ts : String)
    (h : results ≠ []) :
    ∃ r, generateAccessibilityReport results ts = Except.ok r ∧
      r.analysisType = AnalysisMode.static := by
  have hl : ¬results.length = 0 := by
    simpa [List.length_eq_zero] using h
  exact ⟨_, by rw [generateAccessibilityReport, if_neg hl], rfl⟩

/-- Witness for C10: merging a purely dynamic result still yields a
combined result tagged 'static'. -/
theorem report_analysisType_always_static_witness :
    demoDynResult.analysisType = AnalysisMode.dynamic ∧
    ∃ r, generateAccessibilityReport [demoDynResult] "t" = Except.ok r ∧
      r.analysisType = AnalysisMode.static :=
  ⟨rfl, report_analysisType_always_static [demoDynResult] "t" (List.cons_ne_nil _ _)⟩

/-- A match of the outline pattern starts with the literal "outline", so
matching content also contains "outline". -/
theorem hasOutlineNone_contains (content : List Char) :
    hasOutlineNone content = true → listContains content "outline".toList = true := by
  intro h
  simp only [hasOutlineNone] at h
  obtain ⟨t, ht, hm⟩ := List.any_eq_true.mp h
  simp only [matchOutlineNoneAt, Bool.and_eq_true] at hm
  exact List.any_eq_true.mpr ⟨t, ht, hm.1⟩

/-- C9 (amended): for every stylesheet file, at most one outline issue is
emitted: exactly one when the file contains an `outline: none` occurrence
and none of the focus-state selectors, and zero issues otherwise — in
particular zero whenever a focus-state selector appears anywhere in the
file. -/
theorem css_outline_check (content : List Char) (fp : String) :
    analyzeCssFile content fp =
      if hasFocusStyles content then []
      else if hasOutlineNone content then [outlineNoneIssue fp] else [] := by
  cases hf : hasFocusStyles content with
  | true => simp [analyzeCssFile, hf]
  | false =>
    cases ho : hasOutlineNone content with
    | true =>
      have hc := hasOutlineNone_contains content ho
      simp [analyzeCssFile, hf, ho]
      simpa using hc
    | false => simp [analyzeCssFile, hf, ho]

/-- Counterexample for C9 as stated: a stylesheet with two `outline: none`
occurrences and no focus-state selector yields a single issue, not one
issue per occurrence. -/
theorem css_outline_counterexample :
    hasFocusStyles cssSample = false ∧
    countOutlineNone cssSample = 2 ∧
    (analyzeCssFile cssSample "styles.css").length = 1 ∧
    (analyzeCssFile cssSample "styles.css").length ≠ countOutlineNone cssSample := by
  refine ⟨rfl, rfl, rfl, ?_⟩
  decide

end A11yRobot
